import Mathlib

/-!
Verification of the `maptypings` Rust library (`src/lib.rs`), a collection of
generic extension combinators (`map_type`, `none_if`, `err_if`, `forget_val`,
`in_ok`/`in_err`, `swap_res`, `add_ok`/`add_err`, `mutate`).

Shallow embedding notes:
- Rust's `Result<T, E>` is embedded as the inductive `Maptypings.Result T E`
  with constructors `ok`/`err`, mirroring `Ok`/`Err`.
- Rust's `Option<T>` is embedded as Lean's `Option T`.
- A closure `impl FnOnce(&mut T) -> R` handed to `mutate` is embedded as a
  state transformer `T → T × R`: the first component is the state of the value
  after the closure's in-place effects, the second is the closure's own return
  value (which `mutate` discards).
- A predicate `impl Fn(&T) -> bool` is embedded as `T → Bool` for the
  functional claims; for the claim about the predicate being evaluated exactly
  once, the closure's possible effects are made explicit by threading a state
  `σ` through the predicate (`T → σ → Bool × σ`), giving the instrumented
  embeddings `none_ifS` / `err_ifS` with the same single call site the Rust
  source has.
-/

namespace Maptypings

/-- Embedding of Rust `Result<T, E>`: `ok` mirrors `Ok`, `err` mirrors `Err`. -/
inductive Result (T : Type u) (E : Type v) where
  | ok : T → Result T E
  | err : E → Result T E
  deriving DecidableEq, Repr

/-- Embedding of `MapType::map_type` (src/lib.rs lines 22-26): `f(self)`. -/
def map_type {M : Type u} {N : Type v} (self : M) (f : M → N) : N :=
  f self

/-- Embedding of `NoneIf::none_if` (src/lib.rs lines 43-50):
`match cond(&self) { true => None, _ => Some(self) }`. -/
def none_if {T : Type u} (self : T) (cond : T → Bool) : Option T :=
  match cond self with
  | true => none
  | _ => some self

/-- Embedding of `ErrIf::err_if` (src/lib.rs lines 69-76):
`match cond(&self) { true => Err(err), _ => Ok(self) }`. -/
def err_if {T : Type u} {E : Type v} (self : T) (cond : T → Bool) (err : E) :
    Result T E :=
  match cond self with
  | true => .err err
  | _ => .ok self

/-- Embedding of `ForgetValue::forget_val` (src/lib.rs lines 84-86). -/
def forget_val {T : Type u} (_self : T) : Unit := ()

/-- Embedding of `WrapInRes::in_ok` (src/lib.rs lines 110-112): `Ok(self)`. -/
def in_ok {T : Type u} {E : Type v} (self : T) : Result T E :=
  .ok self

/-- Embedding of `WrapInRes::in_err` (src/lib.rs lines 113-115): `Err(self)`. -/
def in_err {T : Type u} {O : Type v} (self : T) : Result O T :=
  .err self

/-- Embedding of `SwapRes::swap_res` (src/lib.rs lines 137-144):
`match self { Ok(t) => Err(t), Err(e) => Ok(e) }`. -/
def swap_res {T : Type u} {E : Type v} : Result T E → Result E T
  | .ok t => .err t
  | .err e => .ok e

/-- Embedding of Rust std's `Option::ok_or`, used by `add_err`:
`Some(v) => Ok(v), None => Err(err)`. -/
def ok_or {T : Type u} {E : Type v} (o : Option T) (err : E) : Result T E :=
  match o with
  | some v => .ok v
  | none => .err err

/-- Embedding of `AddToRes::add_ok` (src/lib.rs lines 168-173):
`match self { None => Ok(ok), Some(e) => Err(e) }`. -/
def add_ok {T : Type u} {O : Type v} (self : Option T) (ok : O) : Result O T :=
  match self with
  | none => .ok ok
  | some e => .err e

/-- Embedding of `AddToRes::add_err` (src/lib.rs lines 174-176):
`self.ok_or(err)`. -/
def add_err {T : Type u} {E : Type v} (self : Option T) (err : E) :
    Result T E :=
  ok_or self err

/-- Embedding of `Mutate::mutate` (src/lib.rs lines 194-198): the closure `f`
receives a mutable view of the value and returns a result `R`; this is embedded
as `f : T → T × R` (post-mutation state, return value). The Rust body binds
`val = self`, calls `f(&mut val)` discarding its result, and returns `val`. -/
def mutate {T : Type u} {R : Type v} (self : T) (f : T → T × R) : T :=
  let val := self
  let val := (f val).1
  val

/-- Instrumented embedding of `none_if` in which the predicate closure's
effects are explicit as a state `σ` threaded through it. The body has exactly
one call site of `cond`, just like the Rust source (src/lib.rs lines 44-49). -/
def none_ifS {T : Type u} {σ : Type v} (self : T) (cond : T → σ → Bool × σ)
    (s : σ) : Option T × σ :=
  match cond self s with
  | (true, s1) => (none, s1)
  | (false, s1) => (some self, s1)

/-- Instrumented embedding of `err_if` in which the predicate closure's
effects are explicit as a state `σ` threaded through it. The body has exactly
one call site of `cond`, just like the Rust source (src/lib.rs lines 70-75). -/
def err_ifS {T : Type u} {E : Type w} {σ : Type v} (self : T)
    (cond : T → σ → Bool × σ) (err : E) (s : σ) : Result T E × σ :=
  match cond self s with
  | (true, s1) => (.err err, s1)
  | (false, s1) => (.ok self, s1)

/-- Number of predicate invocations performed by `cond`, made observable by
pairing a pure predicate with a call counter. -/
def countingPred {T : Type u} (p : T → Bool) : T → Nat → Bool × Nat :=
  fun t n => (p t, n + 1)

/-- Claim C1: for every option value, `add_ok x` on an absent option returns
`ok x` and on `some payload` returns `err payload`; `add_err x` on
`some payload` returns `ok payload` and on an absent option returns `err x`.
The asymmetry (`add_ok` treats presence as the failure signal) holds exactly
as stated. -/
theorem add_ok_add_err_truth_table {T : Type u} {O : Type v} {E : Type w}
    (payload : T) (x : O) (y : E) :
    add_ok (T := T) none x = .ok x ∧
    add_ok (some payload) x = .err payload ∧
    add_err (some payload) y = .ok payload ∧
    add_err (T := T) none y = .err y := by
  refine ⟨rfl, rfl, rfl, rfl⟩

/-- Claim C2: `swap_res` is involutive: applying it twice to any result (in
either branch, with any payload types) yields the original result. -/
theorem swap_res_involutive {T : Type u} {E : Type v} (r : Result T E) :
    swap_res (swap_res r) = r := by
  cases r <;> rfl

/-- Claim C3: `swap_res` maps `ok t` to `err t` and `err e` to `ok e`,
producing a result with success type `E` and failure type `T` (as its Lean
type `Result T E → Result E T` shows); it is total (a total Lean function)
and changes no payload. -/
theorem swap_res_spec {T : Type u} {E : Type v} (t : T) (e : E) :
    swap_res (Result.ok (E := E) t) = .err t ∧
    swap_res (Result.err (T := T) e) = .ok e := by
  exact ⟨rfl, rfl⟩

/-- Claim C4: `err_if v p e` returns `err e` if and only if `p v` is true,
and otherwise returns `ok v` carrying the original value unchanged. -/
theorem err_if_spec {T : Type u} {E : Type v} (v : T) (p : T → Bool) (e : E) :
    (err_if v p e = .err e ↔ p v = true) ∧
    (p v = false → err_if v p e = .ok v) := by
  constructor
  · constructor
    · intro h
      by_contra hp
      rw [Bool.not_eq_true] at hp
      simp [err_if, hp] at h
    · intro hp
      simp [err_if, hp]
  · intro hp
    simp [err_if, hp]

/-- Claim C4 witness: `err_if` at concrete inputs. -/
theorem err_if_spec_witness :
    ((err_if 3 (fun n => decide (n = 3)) "bad" = .err "bad" ↔
      decide ((3 : Nat) = 3) = true) ∧
     (decide ((3 : Nat) = 3) = false →
      err_if 3 (fun n => decide (n = 3)) "bad" = .ok 3)) ∧
    (decide ((4 : Nat) = 3) = false →
     err_if 4 (fun n => decide (n = 3)) "bad" = .ok 4) :=
  ⟨err_if_spec 3 (fun n => decide (n = 3)) "bad",
   (err_if_spec 4 (fun n => decide (n = 3)) "bad").2⟩

/-- Claim C5: `none_if v p` returns `none` when `p v` is true and returns
`some v` — carrying the original, unmodified value — when `p v` is false. -/
theorem none_if_spec {T : Type u} (v : T) (p : T → Bool) :
    (p v = true → none_if v p = none) ∧
    (p v = false → none_if v p = some v) := by
  constructor
  · intro hp
    simp [none_if, hp]
  · intro hp
    simp [none_if, hp]

/-- Claim C5 witness: `none_if` at concrete inputs, one per branch. -/
theorem none_if_spec_witness :
    (decide ((0 : Nat) = 0) = true →
     none_if 0 (fun n => decide (n = 0)) = none) ∧
    (decide ((7 : Nat) = 0) = false →
     none_if 7 (fun n => decide (n = 0)) = some 7) :=
  ⟨(none_if_spec 0 (fun n => decide (n = 0))).1,
   (none_if_spec 7 (fun n => decide (n = 0))).2⟩

/-- Claim C6: for every value `v` and every mutating operation whose in-place
effect is `g` and whose own return value is `ret` (discarded), `mutate`
returns exactly `g v`, the result of applying the operation's effects to the
original value. -/
theorem mutate_spec {T : Type u} {R : Type v} (v : T) (g : T → T)
    (ret : T → R) :
    mutate v (fun s => (g s, ret s)) = g v := by
  rfl

/-- Claim C7: `map_type v f` returns exactly `f v`, with no additional
transformation before or after the call. -/
theorem map_type_spec {T : Type u} {N : Type v} (v : T) (f : T → N) :
    map_type v f = f v := by
  rfl

/-- Claim C8: in both `none_if` and `err_if` (instrumented with the predicate
closure's state made explicit), the predicate is evaluated exactly once per
call regardless of its outcome: the final closure state equals the state after
a single predicate call, a counting predicate records exactly one invocation,
and the value returned in the present/success branch is the original value
(the predicate call only borrowed it). -/
theorem pred_evaluated_once {T : Type u} {E : Type w} {σ : Type v} (v : T)
    (cond : T → σ → Bool × σ) (e : E) (s : σ) (p : T → Bool) (n : Nat) :
    (none_ifS v cond s).2 = (cond v s).2 ∧
    (err_ifS v cond e s).2 = (cond v s).2 ∧
    (none_ifS v (countingPred p) n).2 = n + 1 ∧
    (err_ifS v (countingPred p) e n).2 = n + 1 ∧
    (p v = false → none_ifS v (countingPred p) n = (some v, n + 1)) ∧
    (p v = false → err_ifS v (countingPred p) e n = (.ok v, n + 1)) := by
  refine ⟨?_, ?_, ?_, ?_, ?_, ?_⟩
  · unfold none_ifS
    rcases h : cond v s with ⟨b, s1⟩
    cases b <;> simp
  · unfold err_ifS
    rcases h : cond v s with ⟨b, s1⟩
    cases b <;> simp
  · unfold none_ifS countingPred
    cases hp : p v <;> simp
  · unfold err_ifS countingPred
    cases hp : p v <;> simp
  · intro hp
    simp [none_ifS, countingPred, hp]
  · intro hp
    simp [err_ifS, countingPred, hp]

/-- Claim C8 witness: the instrumented `none_if`/`err_if` at a concrete value,
predicate and counter, with the predicate-false hypotheses discharged. -/
theorem pred_evaluated_once_witness :
    (none_ifS 5 (fun t s => (decide (t = 0), s ++ [t])) ([] : List Nat)).2 =
      ((fun (t : Nat) (s : List Nat) => (decide (t = 0), s ++ [t])) 5 []).2 ∧
    (err_ifS 5 (fun t s => (decide (t = 0), s ++ [t])) "e"
      ([] : List Nat)).2 =
      ((fun (t : Nat) (s : List Nat) => (decide (t = 0), s ++ [t])) 5 []).2 ∧
    (none_ifS 5 (countingPred (fun t => decide (t = 0))) 0).2 = 0 + 1 ∧
    (err_ifS 5 (countingPred (fun t => decide (t = 0))) "e" 0).2 = 0 + 1 ∧
    (decide ((5 : Nat) = 0) = false →
     none_ifS 5 (countingPred (fun t => decide (t = 0))) 0 =
       (some 5, 0 + 1)) ∧
    (decide ((5 : Nat) = 0) = false →
     err_ifS 5 (countingPred (fun t => decide (t = 0))) "e" 0 =
       (.ok 5, 0 + 1)) :=
  pred_evaluated_once 5 (fun t s => (decide (t = 0), s ++ [t])) "e" []
    (fun t => decide (t = 0)) 0

/-- Claim C9: for every option `o` and value `x`, `swap_res (add_ok o x)`
equals `add_err o x` — the two optional-to-result promotions are related by
the branch swap. -/
theorem swap_res_add_ok_eq_add_err {T : Type u} {O : Type v} (o : Option T)
    (x : O) :
    swap_res (add_ok o x) = add_err o x := by
  cases o <;> rfl

/-- Claim C10: `err_if v p e` equals `add_err (none_if v p) e` — the
conditional-to-result operation factors through conditional-to-optional
followed by optional-to-result promotion. -/
theorem err_if_eq_add_err_none_if {T : Type u} {E : Type v} (v : T)
    (p : T → Bool) (e : E) :
    err_if v p e = add_err (none_if v p) e := by
  unfold err_if none_if add_err ok_or
  cases p v <;> simp

end Maptypings
